import Mathlib

/-!
Verification of the agent-loop protocol engine of a computer-use demo.

The development embeds, as executable Lean definitions, the pure decision
logic of the repository's Python modules:

* `src/confirmation.py` — the confirmation/safety policy engine;
* `src/utils.py` (`scale_point`) — the coordinate mapper (modelled over `ℚ`,
  which agrees exactly with the source's binary floating point on all
  screen-sized inputs while keeping the arithmetic exact);
* `src/client.py` — the retry loop and the safety-acknowledgment rewrite;
* `src/actions.py` (`perform_click`, `perform_type`) and the click branch of
  `src/main.py` (`execute_action`).

Remote-service answers (the lightweight YES/NO classifier, per-attempt API
outcomes) and the random jitter are modelled as explicit oracle parameters.
-/

/-! ## Python string primitives -/

/-- `leadsWith needle l` : `needle` occurs at the start of `l`. -/
def leadsWith : List Char → List Char → Bool
  | [], _ => true
  | _ :: _, [] => false
  | a :: as, b :: bs => a == b && leadsWith as bs

/-- `containsSeq needle l` : `needle` occurs contiguously somewhere in `l`
(the semantics of Python's `needle in haystack` on code points). -/
def containsSeq (needle : List Char) : List Char → Bool
  | [] => leadsWith needle []
  | b :: bs => leadsWith needle (b :: bs) || containsSeq needle bs

/-- Python's `needle in haystack` on strings. -/
def pyIn (needle haystack : String) : Bool :=
  containsSeq needle.data haystack.data

/-- Python's `str.lower()`.  All keyword vocabularies used by the source are
ASCII or CJK, on which pointwise ASCII lowering agrees with Python. -/
def pyLower (s : String) : String :=
  String.mk (s.data.map Char.toLower)

/-- Whitespace recognised by `str.strip()` (ASCII whitespace plus the
ideographic space, which covers every character class the source can meet). -/
def pyWhitespace : List Char := [' ', '\t', '\n', '\r', '\x0b', '\x0c', '　']

/-- Python's `not text.strip()` : the string is empty or all whitespace. -/
def isBlankStr (s : String) : Bool :=
  s.data.all fun c => c ∈ pyWhitespace

/-! ## Configuration constants (src/config.py) -/

def AUTO_CONFIRM : Bool := true

def CONFIRM_MESSAGE : String := "はい、進めてください。"

def USE_CONFIRM_INTERPRETER_MODEL : Bool := true

def AUTO_CONFIRM_BLOCK_RISKY : Bool := true

def RISKY_CONFIRM_TERMS : List String :=
  ["購入", "支払い", "決済", "送金", "振込", "削除", "フォーマット", "初期化",
   "解除", "退会", "アンインストール", "delete", "purchase", "payment",
   "transfer", "format", "uninstall"]

/-! ## Confirmation policy engine (src/confirmation.py) -/

def heuristic_confirm_terms : List String :=
  ["Should I", "Can I", "よろしい", "進め", "よい", "開きますか", "しますか",
   "続行", "続け"]

/-- `_looks_like_confirmation_request_heuristic`. -/
def looks_like_confirmation_request_heuristic (text : String) : Bool :=
  if isBlankStr text then false
  else heuristic_confirm_terms.any fun t => pyIn t text

/-- `_should_auto_confirm_via_interpreter`.  The remote classifier call is an
oracle: `some b` means the call succeeded and its first output token equalled
`YES` iff `b`; `none` means the call raised, falling back to the heuristic. -/
def should_auto_confirm_via_interpreter (blockRisky : Bool)
    (oracle : Option Bool) (text : String) : Bool :=
  if isBlankStr text then false
  else if blockRisky && RISKY_CONFIRM_TERMS.any (fun t => pyIn t (pyLower text)) then
    false
  else
    match oracle with
    | some ans => ans
    | none => looks_like_confirmation_request_heuristic text

def file_context_terms : List String :=
  ["file", "folder", "directory", "path", "document",
   "ファイル", "フォルダ", "ディレクトリ", "パス", "ドキュメント", "保存"]

def save_as_terms : List String :=
  ["別名保存", "名前を付けて保存", "名前をつけて保存", "save as", "save a copy",
   "save a new copy", "save copy", "save new copy", "save as new"]

def overwrite_terms_strong : List String :=
  ["上書き", "上書き保存", "置き換え", "overwrite", "overwrite existing",
   "replace existing", "replace the existing"]

def delete_terms_strong : List String :=
  ["削除", "消去", "ゴミ箱", "delete", "unlink", "erase", "rm ", "rmdir", "del "]

def delete_terms_soft : List String := ["remove", "remove it", "remove the"]

/-- `_classify_file_operation_confirmation`. -/
def classify_file_operation_confirmation (text : String) : String :=
  if isBlankStr text then "none"
  else
    let lowered := pyLower text
    let has_file_context := file_context_terms.any fun t => pyIn t lowered
    let save_as_hit := save_as_terms.any fun t => pyIn t lowered
    let overwrite_hit0 := overwrite_terms_strong.any fun t => pyIn t lowered
    let overwrite_hit :=
      if overwrite_hit0 && !has_file_context then
        (["上書き", "上書き保存", "overwrite"] : List String).any fun t =>
          pyIn t lowered
      else overwrite_hit0
    let delete_hit0 := delete_terms_strong.any fun t => pyIn t lowered
    let delete_hit :=
      if !delete_hit0 && has_file_context then
        delete_terms_soft.any fun t => pyIn t lowered
      else delete_hit0
    if save_as_hit && (overwrite_hit || delete_hit) then "mixed"
    else if delete_hit then "delete"
    else if overwrite_hit then "overwrite"
    else if save_as_hit then "save_as"
    else "none"

/-- The decision `get_or_confirm_computer_call` takes for one turn, together
with the message it sends back (when it sends one). -/
inductive Verdict where
  | passThrough
  | noAction
  | autoDeny (msg : String)
  | redirect (msg : String)
  | autoApprove (msg : String)
deriving DecidableEq

def DELETE_REFUSAL_MESSAGE : String :=
  "いいえ。ファイルの削除は行えません。削除しない代替手順で進めてください。"

def OVERWRITE_REFUSAL_MESSAGE : String :=
  "いいえ。ファイルの上書き保存は行えません。別名保存（名前を付けて保存）で進めてください。"

def SAVE_AS_REDIRECT_MESSAGE : String :=
  "別名保存（名前を付けて保存 / Save As）で進めてください。上書き保存やファイル削除はしないでください。"

/-- The confirmation-intent decision of `get_or_confirm_computer_call`. -/
def needs_confirm (useInterp blockRisky : Bool) (oracle : Option Bool)
    (text : String) : Bool :=
  if useInterp then should_auto_confirm_via_interpreter blockRisky oracle text
  else looks_like_confirmation_request_heuristic text

/-- `get_or_confirm_computer_call`, as a function of the decision-relevant
state: whether the turn carried a computer call, the configuration flags, the
classifier oracle, and the concatenated output text. -/
def get_or_confirm_verdict (hasCall autoConfirmFlag useInterp blockRisky : Bool)
    (oracle : Option Bool) (text : String) : Verdict :=
  if hasCall then .passThrough
  else if !autoConfirmFlag then .noAction
  else if !(needs_confirm useInterp blockRisky oracle text) then .noAction
  else
    let file_op := classify_file_operation_confirmation text
    if file_op = "delete" then .autoDeny DELETE_REFUSAL_MESSAGE
    else if file_op = "overwrite" then .autoDeny OVERWRITE_REFUSAL_MESSAGE
    else if file_op = "save_as" ∨ file_op = "mixed" then
      .redirect SAVE_AS_REDIRECT_MESSAGE
    else .autoApprove CONFIRM_MESSAGE

/-! ### Policy lemmas -/

lemma needs_confirm_of_blank (useInterp blockRisky : Bool) (oracle : Option Bool)
    (text : String) (hb : isBlankStr text = true) :
    needs_confirm useInterp blockRisky oracle text = false := by
  cases useInterp <;>
    simp [needs_confirm, should_auto_confirm_via_interpreter,
      looks_like_confirmation_request_heuristic, hb]

lemma classify_of_delete_hit (text : String) (hb : isBlankStr text = false)
    (hdel : delete_terms_strong.any (fun t => pyIn t (pyLower text)) = true) :
    classify_file_operation_confirmation text = "mixed" ∨
      classify_file_operation_confirmation text = "delete" := by
  unfold classify_file_operation_confirmation
  simp only [hb, Bool.false_eq_true, if_false]
  rw [hdel]
  generalize (file_context_terms.any fun t => pyIn t (pyLower text)) = fc
  generalize (save_as_terms.any fun t => pyIn t (pyLower text)) = sa
  generalize (overwrite_terms_strong.any fun t => pyIn t (pyLower text)) = ow
  generalize ((["上書き", "上書き保存", "overwrite"] : List String).any fun t =>
    pyIn t (pyLower text)) = own
  generalize (delete_terms_soft.any fun t => pyIn t (pyLower text)) = soft
  revert fc sa ow own soft
  decide

lemma classify_of_save_as_hit (text : String) (hb : isBlankStr text = false)
    (hsa : save_as_terms.any (fun t => pyIn t (pyLower text)) = true) :
    classify_file_operation_confirmation text = "mixed" ∨
      classify_file_operation_confirmation text = "save_as" := by
  unfold classify_file_operation_confirmation
  simp only [hb, Bool.false_eq_true, if_false]
  rw [hsa]
  generalize (file_context_terms.any fun t => pyIn t (pyLower text)) = fc
  generalize (overwrite_terms_strong.any fun t => pyIn t (pyLower text)) = ow
  generalize ((["上書き", "上書き保存", "overwrite"] : List String).any fun t =>
    pyIn t (pyLower text)) = own
  generalize (delete_terms_strong.any fun t => pyIn t (pyLower text)) = del
  generalize (delete_terms_soft.any fun t => pyIn t (pyLower text)) = soft
  revert fc ow own del soft
  decide

lemma risky_blocks_interpreter_mode (oracle : Option Bool) (text : String)
    (hrisky : RISKY_CONFIRM_TERMS.any (fun t => pyIn t (pyLower text)) = true) :
    get_or_confirm_verdict false true true true oracle text = Verdict.noAction := by
  have hn : needs_confirm true true oracle text = false := by
    unfold needs_confirm should_auto_confirm_via_interpreter
    cases hB : isBlankStr text with
    | true => simp [hB]
    | false => simp [hB, hrisky]
  unfold get_or_confirm_verdict
  simp [hn]

lemma redirect_of_save_as_hit (useInterp blockRisky : Bool) (oracle : Option Bool)
    (text : String)
    (hsa : save_as_terms.any (fun t => pyIn t (pyLower text)) = true)
    (hn : needs_confirm useInterp blockRisky oracle text = true) :
    get_or_confirm_verdict false true useInterp blockRisky oracle text
      = Verdict.redirect SAVE_AS_REDIRECT_MESSAGE := by
  have hb : isBlankStr text = false := by
    cases hB : isBlankStr text with
    | false => rfl
    | true =>
      rw [needs_confirm_of_blank useInterp blockRisky oracle text hB] at hn
      exact absurd hn (by simp)
  rcases classify_of_save_as_hit text hb hsa with h | h <;>
    · unfold get_or_confirm_verdict
      simp [hn, h]

/-! ### C1–C4 -/

/-- C1: for every assistant message text whose lowered form contains a strict
delete keyword (削除, delete, erase, …), `get_or_confirm_computer_call` never
sends the generic affirmative confirmation message, under every configuration
(interpreter-model path or keyword-heuristic path) and every classifier
answer. -/
theorem C1_strict_delete_never_auto_approved
    (hasCall autoConfirmFlag useInterp blockRisky : Bool) (oracle : Option Bool)
    (text msg : String)
    (hdel : delete_terms_strong.any (fun t => pyIn t (pyLower text)) = true) :
    get_or_confirm_verdict hasCall autoConfirmFlag useInterp blockRisky oracle text
      ≠ Verdict.autoApprove msg := by
  unfold get_or_confirm_verdict
  cases hasCall with
  | true => simp
  | false =>
    cases autoConfirmFlag with
    | false => simp
    | true =>
      cases hn : needs_confirm useInterp blockRisky oracle text with
      | false => simp [hn]
      | true =>
        have hb : isBlankStr text = false := by
          cases hB : isBlankStr text with
          | false => rfl
          | true =>
            rw [needs_confirm_of_blank useInterp blockRisky oracle text hB] at hn
            exact absurd hn (by simp)
        rcases classify_of_delete_hit text hb hdel with h | h <;> simp [hn, h]

/-- Witness for C1 at the concrete text ファイルを削除しますか？ in
keyword-heuristic mode. -/
theorem C1_strict_delete_never_auto_approved_witness :
    get_or_confirm_verdict false true false true none "ファイルを削除しますか？"
      ≠ Verdict.autoApprove CONFIRM_MESSAGE :=
  C1_strict_delete_never_auto_approved false true false true none
    "ファイルを削除しますか？" CONFIRM_MESSAGE (by decide)

/-- C2 counterexample: the text 購入してもよろしいですか？ contains the
denylist term 購入, yet in keyword-heuristic mode the engine sends the generic
affirmative confirmation (verdict `auto_approve`), because the risky-term
denylist is only consulted on the interpreter-model path. -/
theorem C2_counterexample_heuristic_mode_ignores_denylist :
    RISKY_CONFIRM_TERMS.any
        (fun t => pyIn t (pyLower "購入してもよろしいですか？")) = true ∧
    get_or_confirm_verdict false true false true none "購入してもよろしいですか？"
      = Verdict.autoApprove CONFIRM_MESSAGE := by
  exact ⟨by decide, by decide⟩

/-- C2 (amended): on the remote-classifier path with
`AUTO_CONFIRM_BLOCK_RISKY`, a denylist term anywhere in the lowered text
forces verdict `no_action_needed` regardless of the classifier's answer; the
keyword-heuristic path performs no denylist check. -/
theorem C2_amended_denylist_blocks_interpreter_path (oracle : Option Bool)
    (text : String)
    (hrisky : RISKY_CONFIRM_TERMS.any (fun t => pyIn t (pyLower text)) = true) :
    get_or_confirm_verdict false true true true oracle text = Verdict.noAction :=
  risky_blocks_interpreter_mode oracle text hrisky

/-- Witness for the amended C2 at 購入してもよろしいですか？ with a classifier
that answers YES. -/
theorem C2_amended_denylist_blocks_interpreter_path_witness :
    get_or_confirm_verdict false true true true (some true)
      "購入してもよろしいですか？" = Verdict.noAction :=
  C2_amended_denylist_blocks_interpreter_path (some true)
    "購入してもよろしいですか？" (by decide)

/-- C3 counterexample: under the source's default configuration
(`USE_CONFIRM_INTERPRETER_MODEL = true`, `AUTO_CONFIRM_BLOCK_RISKY = true`),
the no-action turn with message 削除してよろしいですか？ yields verdict
`no_action_needed` — not the claimed `auto_deny` — even when the classifier
answers YES, because 削除 is on the risky denylist checked first. -/
theorem C3_counterexample_default_config_no_auto_deny :
    get_or_confirm_verdict false AUTO_CONFIRM USE_CONFIRM_INTERPRETER_MODEL
        AUTO_CONFIRM_BLOCK_RISKY (some true) "削除してよろしいですか？"
      = Verdict.noAction ∧
    Verdict.noAction ≠ Verdict.autoDeny DELETE_REFUSAL_MESSAGE := by
  exact ⟨by decide, by decide⟩

/-- C3 (amended): for the no-action turn with message 削除してよろしいですか？,
in keyword-heuristic mode the verdict is `auto_deny` with the canned refusal
directing a non-destructive alternative, while under the default
interpreter-model path with risky blocking the verdict is `no_action_needed`
(the loop halts with nothing dispatched); in neither mode is an affirmative
confirmation produced. -/
theorem C3_amended_delete_confirmation_outcome :
    get_or_confirm_verdict false true false true none "削除してよろしいですか？"
        = Verdict.autoDeny DELETE_REFUSAL_MESSAGE ∧
    ∀ oracle : Option Bool,
      get_or_confirm_verdict false true true true oracle "削除してよろしいですか？"
        = Verdict.noAction := by
  refine ⟨by decide, fun oracle => ?_⟩
  exact risky_blocks_interpreter_mode oracle "削除してよろしいですか？" (by decide)

/-- C4 counterexample: the text ファイルを上書きまたは名前を付けて保存
contains both a save-as phrase and an overwrite phrase, yet the verdict is
`no_action_needed` (not the claimed `redirect`), because the text never
reaches the file-operation classifier when it is not judged a confirmation
request. -/
theorem C4_counterexample_no_redirect_without_confirmation :
    (save_as_terms.any fun t =>
        pyIn t (pyLower "ファイルを上書きまたは名前を付けて保存")) = true ∧
    (overwrite_terms_strong.any fun t =>
        pyIn t (pyLower "ファイルを上書きまたは名前を付けて保存")) = true ∧
    get_or_confirm_verdict false true false true none
        "ファイルを上書きまたは名前を付けて保存" = Verdict.noAction := by
  exact ⟨by decide, by decide, by decide⟩

/-- C4 (amended): for every text containing both a save-as phrase and an
overwrite phrase, the verdict is never `auto_deny` and never `auto_approve`,
and whenever the engine proceeds past the confirmation-intent test (no
computer call, auto-confirm on, text judged a confirmation request) the
verdict is `redirect` with the canned save-as message. -/
theorem C4_amended_save_as_overwrite_redirect
    (hasCall autoConfirmFlag useInterp blockRisky : Bool) (oracle : Option Bool)
    (text : String)
    (hsa : save_as_terms.any (fun t => pyIn t (pyLower text)) = true)
    (how : overwrite_terms_strong.any (fun t => pyIn t (pyLower text)) = true) :
    (∀ m, get_or_confirm_verdict hasCall autoConfirmFlag useInterp blockRisky
        oracle text ≠ Verdict.autoDeny m) ∧
    (∀ m, get_or_confirm_verdict hasCall autoConfirmFlag useInterp blockRisky
        oracle text ≠ Verdict.autoApprove m) ∧
    (hasCall = false → autoConfirmFlag = true →
      needs_confirm useInterp blockRisky oracle text = true →
      get_or_confirm_verdict hasCall autoConfirmFlag useInterp blockRisky
          oracle text = Verdict.redirect SAVE_AS_REDIRECT_MESSAGE) := by
  have key : ∀ hC aC : Bool,
      get_or_confirm_verdict hC aC useInterp blockRisky oracle text
          = Verdict.passThrough ∨
      get_or_confirm_verdict hC aC useInterp blockRisky oracle text
          = Verdict.noAction ∨
      get_or_confirm_verdict hC aC useInterp blockRisky oracle text
          = Verdict.redirect SAVE_AS_REDIRECT_MESSAGE := by
    intro hC aC
    cases hC with
    | true => exact Or.inl (by unfold get_or_confirm_verdict; simp)
    | false =>
      cases aC with
      | false => exact Or.inr (Or.inl (by unfold get_or_confirm_verdict; simp))
      | true =>
        cases hn : needs_confirm useInterp blockRisky oracle text with
        | false =>
          exact Or.inr (Or.inl (by unfold get_or_confirm_verdict; simp [hn]))
        | true =>
          exact Or.inr (Or.inr
            (redirect_of_save_as_hit useInterp blockRisky oracle text hsa hn))
  refine ⟨?_, ?_, ?_⟩
  · intro m
    rcases key hasCall autoConfirmFlag with h | h | h <;> simp [h]
  · intro m
    rcases key hasCall autoConfirmFlag with h | h | h <;> simp [h]
  · intro h1 h2 hn
    subst h1; subst h2
    exact redirect_of_save_as_hit useInterp blockRisky oracle text hsa hn

/-- Witness for the amended C4 at a text that carries both phrases and is
judged a confirmation request by the heuristic. -/
theorem C4_amended_save_as_overwrite_redirect_witness :
    (∀ m, get_or_confirm_verdict false true false true none
        "上書きしますか？それとも名前を付けて保存しますか？" ≠ Verdict.autoDeny m) ∧
    (∀ m, get_or_confirm_verdict false true false true none
        "上書きしますか？それとも名前を付けて保存しますか？" ≠ Verdict.autoApprove m) ∧
    (false = false → true = true →
      needs_confirm false true none "上書きしますか？それとも名前を付けて保存しますか？" = true →
      get_or_confirm_verdict false true false true none
          "上書きしますか？それとも名前を付けて保存しますか？"
        = Verdict.redirect SAVE_AS_REDIRECT_MESSAGE) :=
  C4_amended_save_as_overwrite_redirect false true false true none
    "上書きしますか？それとも名前を付けて保存しますか？" (by decide) (by decide)

/-! ## Coordinate mapper (src/utils.py, `scale_point`)

Arithmetic is modelled over `ℚ`: on all inputs of screen magnitude the
source's float computation is exact, and Python's `round` is
round-half-to-even. -/

/-- Python's built-in `round` (banker's rounding) on an exact rational. -/
def pyRound (q : ℚ) : ℤ :=
  if q - (⌊q⌋ : ℚ) < 1/2 then ⌊q⌋
  else if 1/2 < q - (⌊q⌋ : ℚ) then ⌊q⌋ + 1
  else if ⌊q⌋ % 2 = 0 then ⌊q⌋ else ⌊q⌋ + 1

/-- `scale_point`.  `none` models the `ZeroDivisionError` raised when a source
dimension is zero; every other input produces a value. -/
def scale_point (x y from_width from_height to_width to_height : ℤ) :
    Option (ℤ × ℤ) :=
  if from_width = 0 ∨ from_height = 0 then none
  else
    let sx : ℚ := (to_width : ℚ) / (from_width : ℚ)
    let sy : ℚ := (to_height : ℚ) / (from_height : ℚ)
    some (pyRound ((x : ℚ) * sx), pyRound ((y : ℚ) * sy))

lemma pyRound_intCast (n : ℤ) : pyRound (n : ℚ) = n := by
  unfold pyRound
  rw [Int.floor_intCast]
  norm_num

lemma abs_pyRound_sub_le (q : ℚ) : |(pyRound q : ℚ) - q| ≤ 1/2 := by
  unfold pyRound
  have h0 : (0 : ℚ) ≤ q - (⌊q⌋ : ℚ) := by
    have := Int.floor_le q; linarith
  have h1 : q - (⌊q⌋ : ℚ) < 1 := by
    have := Int.lt_floor_add_one q; linarith
  by_cases hlt : q - (⌊q⌋ : ℚ) < 1/2
  · rw [if_pos hlt, abs_le]
    constructor <;> linarith
  · rw [if_neg hlt]
    by_cases hgt : 1/2 < q - (⌊q⌋ : ℚ)
    · rw [if_pos hgt]
      push_cast
      rw [abs_le]
      constructor <;> linarith
    · rw [if_neg hgt]
      have heq : q - (⌊q⌋ : ℚ) = 1/2 :=
        le_antisymm (not_lt.mp hgt) (not_lt.mp hlt)
      by_cases hev : ⌊q⌋ % 2 = 0
      · rw [if_pos hev, abs_le]
        constructor <;> linarith
      · rw [if_neg hev]
        push_cast
        rw [abs_le]
        constructor <;> linarith

/-! ### C5, C9 -/

/-- C5: for positive dimensions the coordinate mapper succeeds and returns,
per axis, an integer within 1/2 of the exact proportional value
`virtual * realDim / virtualDim` (round to nearest), and with identical source
and target dimensions it is the identity on every integer point. -/
theorem C5_scale_point_round_nearest_and_identity
    (x y fw fh tw th d e : ℤ)
    (hfw : 0 < fw) (hfh : 0 < fh) (htw : 0 < tw) (hth : 0 < th)
    (hd : 0 < d) (he : 0 < e) :
    (∃ px py, scale_point x y fw fh tw th = some (px, py) ∧
        |(px : ℚ) - (x : ℚ) * (tw : ℚ) / (fw : ℚ)| ≤ 1/2 ∧
        |(py : ℚ) - (y : ℚ) * (th : ℚ) / (fh : ℚ)| ≤ 1/2) ∧
    scale_point x y d e d e = some (x, y) := by
  constructor
  · have hne : ¬(fw = 0 ∨ fh = 0) := by
      rintro (h | h) <;> omega
    refine ⟨pyRound ((x : ℚ) * ((tw : ℚ) / (fw : ℚ))),
      pyRound ((y : ℚ) * ((th : ℚ) / (fh : ℚ))), ?_, ?_, ?_⟩
    · unfold scale_point
      rw [if_neg hne]
    · rw [mul_div_assoc]
      exact abs_pyRound_sub_le _
    · rw [mul_div_assoc]
      exact abs_pyRound_sub_le _
  · have hne : ¬(d = 0 ∨ e = 0) := by
      rintro (h | h) <;> omega
    unfold scale_point
    rw [if_neg hne]
    have hdd : (d : ℚ) / (d : ℚ) = 1 := div_self (by exact_mod_cast hd.ne')
    have hee : (e : ℚ) / (e : ℚ) = 1 := div_self (by exact_mod_cast he.ne')
    simp [hdd, hee, pyRound_intCast]

/-- Witness for C5 at `(7, -3)`, source `3×2`, target `5×4`, identity
dimensions `6×9`. -/
theorem C5_scale_point_round_nearest_and_identity_witness :
    (∃ px py, scale_point 7 (-3) 3 2 5 4 = some (px, py) ∧
        |(px : ℚ) - ((7 : ℤ) : ℚ) * ((5 : ℤ) : ℚ) / ((3 : ℤ) : ℚ)| ≤ 1/2 ∧
        |(py : ℚ) - ((-3 : ℤ) : ℚ) * ((4 : ℤ) : ℚ) / ((2 : ℤ) : ℚ)| ≤ 1/2) ∧
    scale_point 7 (-3) 6 9 6 9 = some (7, -3) :=
  C5_scale_point_round_nearest_and_identity 7 (-3) 3 2 5 4 6 9
    (by decide) (by decide) (by decide) (by decide) (by decide) (by decide)

/-- C9 counterexample: the mapper does not reject non-positive dimensions.  A
negative source width and a zero target width are both accepted and produce a
value; only a zero source dimension fails. -/
theorem C9_counterexample_nonpositive_dims_accepted :
    ((-1 : ℤ) ≤ 0 ∧ scale_point 10 10 (-1) 1 1 1 = some (-10, 10)) ∧
    ((0 : ℤ) ≤ 0 ∧ scale_point 10 10 1 1 0 1 = some (0, 10)) := by
  refine ⟨⟨by decide, ?_⟩, ⟨by decide, ?_⟩⟩ <;> norm_num [scale_point, pyRound]

/-- C9 (amended): the coordinate mapper fails exactly when a source dimension
is zero (`ZeroDivisionError`); for any nonzero source dimensions — positive or
negative — and arbitrary target dimensions and integer points it succeeds. -/
theorem C9_amended_failure_iff_zero_source_dimension
    (x y fw fh tw th : ℤ) :
    scale_point x y fw fh tw th = none ↔ (fw = 0 ∨ fh = 0) := by
  by_cases h : fw = 0 ∨ fh = 0 <;> simp [scale_point, h]

/-! ## Step executor: the click path (src/actions.py `perform_click`,
src/main.py `execute_action`) -/

/-- Python tuple unpacking `a, b, c, d = t`: succeeds only on a 4-tuple,
otherwise raises `ValueError`. -/
def pyUnpack4 (l : List ℤ) : Option (ℤ × ℤ × ℤ × ℤ) :=
  match l with
  | [a, b, c, d] => some (a, b, c, d)
  | _ => none

/-- `perform_click`: scales the model point to the physical screen, clicks at
the scaled point, and returns the 2-tuple `(px, py)`.  The result carries the
point actually clicked on the device together with the returned tuple. -/
def perform_click (x y display_width display_height screen_w screen_h : ℤ) :
    Option ((ℤ × ℤ) × List ℤ) :=
  (scale_point x y display_width display_height screen_w screen_h).map
    fun p => ((p.1, p.2), [p.1, p.2])

/-- The `click` branch of `execute_action` unpacks four values
`px, py, screen_w, screen_h` from whatever `perform_click` returned. -/
def execute_action_click_unpack (x y dw dh sw sh : ℤ) :
    Option (ℤ × ℤ × ℤ × ℤ) :=
  match perform_click x y dw dh sw sh with
  | some (_, ret) => pyUnpack4 ret
  | none => none

/-- C6: for a click at virtual `(100,100)` with declared display `200×200` on
a `1920×1080` device, the point physically clicked is `(960, 540)` as the spec
states — but `execute_action`'s 4-value unpacking of `perform_click`'s
2-tuple then fails (`ValueError`), so the click step never completes or logs
the mapped point. -/
theorem C6_click_maps_to_960_540_but_step_crashes :
    perform_click 100 100 200 200 1920 1080 = some ((960, 540), [960, 540]) ∧
    execute_action_click_unpack 100 100 200 200 1920 1080 = none := by
  have h : scale_point 100 100 200 200 1920 1080 = some (960, 540) := by
    norm_num [scale_point, pyRound]
  refine ⟨?_, ?_⟩ <;> simp [execute_action_click_unpack, perform_click, h, pyUnpack4]

/-! ## Transport/retry client (src/client.py, `responses_create_with_retry`)

The per-attempt API outcome and the random jitter are oracle parameters.  The
backoff arithmetic is exact in binary floating point for these magnitudes, so
`ℚ` models it exactly. -/

def MAX_API_RETRIES : ℕ := 8

def INITIAL_BACKOFF_SECONDS : ℚ := 1

def MAX_BACKOFF_SECONDS : ℚ := 30

/-- `min(MAX_BACKOFF_SECONDS, INITIAL_BACKOFF_SECONDS * (2**attempt))` — the
jitter-free base backoff. -/
def rate_limit_backoff (attempt : ℕ) : ℚ :=
  min MAX_BACKOFF_SECONDS (INITIAL_BACKOFF_SECONDS * 2 ^ attempt)

/-- The sleep performed for one rate-limited attempt:
`max(0.5, min(MAX_BACKOFF_SECONDS, retry_after or (backoff + jitter)))`. -/
def rate_limit_sleep (attempt : ℕ) (retryAfter : Option ℚ) (jitter : ℚ) : ℚ :=
  let sleep0 :=
    match retryAfter with
    | some ra => ra
    | none => rate_limit_backoff attempt + jitter
  max (1/2) (min MAX_BACKOFF_SECONDS sleep0)

/-- Outcome of one `client.responses.create` call, restricted to the
rate-limit path. -/
inductive ApiOutcome where
  | ok
  | rateLimited (retryAfter : Option ℚ)

/-- Result of the retry loop: the success attempt index (or the attempt at
which the last error was re-raised) together with the sleeps performed. -/
inductive RetryResult where
  | returned (attempt : ℕ) (sleeps : List ℚ)
  | raised (attempt : ℕ) (sleeps : List ℚ)

/-- The `for attempt in range(0, MAX_API_RETRIES + 1)` loop of
`responses_create_with_retry`, rate-limit branch. -/
def retryLoop (outcome : ℕ → ApiOutcome) (jitter : ℕ → ℚ)
    (attempt : ℕ) (acc : List ℚ) : RetryResult :=
  match outcome attempt with
  | .ok => .returned attempt acc.reverse
  | .rateLimited ra =>
    if h : MAX_API_RETRIES ≤ attempt then .raised attempt acc.reverse
    else retryLoop outcome jitter (attempt + 1)
      (rate_limit_sleep attempt ra (jitter attempt) :: acc)
termination_by MAX_API_RETRIES + 1 - attempt
decreasing_by omega

def responses_create_with_retry (outcome : ℕ → ApiOutcome)
    (jitter : ℕ → ℚ) : RetryResult :=
  retryLoop outcome jitter 0 []

lemma retryLoop_ok_eq (outcome : ℕ → ApiOutcome) (jitter : ℕ → ℚ)
    (a : ℕ) (acc : List ℚ) (hra : outcome a = .ok) :
    retryLoop outcome jitter a acc = .returned a acc.reverse := by
  rw [retryLoop, hra]

lemma retryLoop_rl_stop (outcome : ℕ → ApiOutcome) (jitter : ℕ → ℚ)
    (a : ℕ) (acc : List ℚ) (ra : Option ℚ)
    (hra : outcome a = .rateLimited ra) (h : MAX_API_RETRIES ≤ a) :
    retryLoop outcome jitter a acc = .raised a acc.reverse := by
  rw [retryLoop, hra]
  exact dif_pos h

lemma retryLoop_rl_step (outcome : ℕ → ApiOutcome) (jitter : ℕ → ℚ)
    (a : ℕ) (acc : List ℚ) (ra : Option ℚ)
    (hra : outcome a = .rateLimited ra) (h : ¬ MAX_API_RETRIES ≤ a) :
    retryLoop outcome jitter a acc =
      retryLoop outcome jitter (a + 1)
        (rate_limit_sleep a ra (jitter a) :: acc) := by
  rw [retryLoop, hra]
  exact dif_neg h

lemma rate_limit_sleep_bounds (attempt : ℕ) (ra : Option ℚ) (j : ℚ) :
    1/2 ≤ rate_limit_sleep attempt ra j ∧
      rate_limit_sleep attempt ra j ≤ MAX_BACKOFF_SECONDS := by
  unfold rate_limit_sleep
  refine ⟨le_max_left _ _, max_le ?_ (min_le_left _ _)⟩
  norm_num [MAX_BACKOFF_SECONDS]

lemma rate_limit_backoff_mono (i j : ℕ) (hij : i ≤ j) :
    rate_limit_backoff i ≤ rate_limit_backoff j := by
  unfold rate_limit_backoff INITIAL_BACKOFF_SECONDS
  apply min_le_min le_rfl
  rw [one_mul, one_mul]
  exact pow_le_pow_right₀ (by norm_num) hij

lemma retryLoop_success (outcome : ℕ → ApiOutcome) (jitter : ℕ → ℚ) (n : ℕ)
    (hok : outcome n = .ok) (hn : n ≤ MAX_API_RETRIES) :
    ∀ gas a acc, n - a = gas → a ≤ n →
      (∀ i, a ≤ i → i < n → ∃ ra, outcome i = .rateLimited ra) →
      ∃ tail, retryLoop outcome jitter a acc = .returned n (acc.reverse ++ tail) ∧
        tail.length = n - a ∧
        ∀ s ∈ tail, 1/2 ≤ s ∧ s ≤ MAX_BACKOFF_SECONDS := by
  intro gas
  induction gas with
  | zero =>
    intro a acc hga ha hfail
    have hae : a = n := by omega
    subst hae
    refine ⟨[], ?_, by simp, by simp⟩
    rw [retryLoop_ok_eq outcome jitter a acc hok]
    simp
  | succ g ih =>
    intro a acc hga ha hfail
    have han : a < n := by omega
    obtain ⟨ra, hra⟩ := hfail a le_rfl han
    have hlt : ¬ MAX_API_RETRIES ≤ a := by omega
    obtain ⟨tail, heq, hlen, hbd⟩ :=
      ih (a + 1) (rate_limit_sleep a ra (jitter a) :: acc) (by omega) (by omega)
        (fun i h1 h2 => hfail i (by omega) h2)
    refine ⟨rate_limit_sleep a ra (jitter a) :: tail, ?_, by simp; omega, ?_⟩
    · rw [retryLoop_rl_step outcome jitter a acc ra hra hlt, heq]
      simp
    · intro s hs
      rcases List.mem_cons.mp hs with h | h
      · subst h
        exact rate_limit_sleep_bounds a ra (jitter a)
      · exact hbd s h

lemma retryLoop_exhaust (outcome : ℕ → ApiOutcome) (jitter : ℕ → ℚ)
    (hfail : ∀ i, ∃ ra, outcome i = .rateLimited ra) :
    ∀ gas a acc, MAX_API_RETRIES - a = gas → a ≤ MAX_API_RETRIES →
      ∃ sleeps, retryLoop outcome jitter a acc
          = .raised MAX_API_RETRIES sleeps := by
  intro gas
  induction gas with
  | zero =>
    intro a acc hga ha
    obtain ⟨ra, hra⟩ := hfail a
    have hae : a = MAX_API_RETRIES := by omega
    refine ⟨acc.reverse, ?_⟩
    rw [retryLoop_rl_stop outcome jitter a acc ra hra (by omega), hae]
  | succ g ih =>
    intro a acc hga ha
    obtain ⟨ra, hra⟩ := hfail a
    have hlt : ¬ MAX_API_RETRIES ≤ a := by omega
    rw [retryLoop_rl_step outcome jitter a acc ra hra hlt]
    exact ih (a + 1) _ (by omega) (by omega)

/-! ### C7 -/

/-- C7: with `k ≤ MAX_API_RETRIES` rate-limit failures followed by a success,
the retry client returns the success (at attempt `k`, having slept exactly `k`
times); every per-attempt sleep — server-suggested or computed — lies in
`[0.5, MAX_BACKOFF_SECONDS]`; the jitter-free base backoff is monotonically
non-decreasing across attempts; and when every attempt is rate-limited the
loop re-raises the last error at the attempt budget. -/
theorem C7_retry_client_rate_limit_schedule
    (k : ℕ) (outcome : ℕ → ApiOutcome) (ra : ℕ → Option ℚ) (jitter : ℕ → ℚ)
    (hk : k ≤ MAX_API_RETRIES)
    (hfail : ∀ i, i < k → outcome i = .rateLimited (ra i))
    (hok : outcome k = .ok) :
    (∃ sleeps, responses_create_with_retry outcome jitter = .returned k sleeps ∧
        sleeps.length = k ∧ ∀ s ∈ sleeps, 1/2 ≤ s ∧ s ≤ MAX_BACKOFF_SECONDS) ∧
    (∀ i j : ℕ, i ≤ j → rate_limit_backoff i ≤ rate_limit_backoff j) ∧
    (∀ outcome2 : ℕ → ApiOutcome,
      (∀ i, ∃ ra2, outcome2 i = ApiOutcome.rateLimited ra2) →
      ∃ sleeps2, responses_create_with_retry outcome2 jitter
          = .raised MAX_API_RETRIES sleeps2) := by
  refine ⟨?_, rate_limit_backoff_mono, ?_⟩
  · obtain ⟨tail, heq, hlen, hbd⟩ :=
      retryLoop_success outcome jitter k hok hk (k - 0) 0 [] rfl (by omega)
        (fun i h1 h2 => ⟨ra i, hfail i h2⟩)
    exact ⟨tail, by simpa [responses_create_with_retry] using heq, by omega, hbd⟩
  · intro outcome2 hfail2
    exact retryLoop_exhaust outcome2 jitter hfail2 MAX_API_RETRIES 0 [] rfl
      (by omega)

/-- Witness for C7 with two rate-limit failures and zero jitter. -/
theorem C7_retry_client_rate_limit_schedule_witness :
    (∃ sleeps,
        responses_create_with_retry
            (fun i => if i < 2 then ApiOutcome.rateLimited none else .ok)
            (fun _ => 0) = .returned 2 sleeps ∧
        sleeps.length = 2 ∧
        ∀ s ∈ sleeps, 1/2 ≤ s ∧ s ≤ MAX_BACKOFF_SECONDS) ∧
    (∀ i j : ℕ, i ≤ j → rate_limit_backoff i ≤ rate_limit_backoff j) ∧
    (∀ outcome2 : ℕ → ApiOutcome,
      (∀ i, ∃ ra2, outcome2 i = ApiOutcome.rateLimited ra2) →
      ∃ sleeps2, responses_create_with_retry outcome2 (fun _ => 0)
          = .raised MAX_API_RETRIES sleeps2) :=
  C7_retry_client_rate_limit_schedule 2
    (fun i => if i < 2 then ApiOutcome.rateLimited none else .ok)
    (fun _ => none) (fun _ => 0)
    (by norm_num [MAX_API_RETRIES])
    (fun i hi => by simp [hi])
    (by norm_num)

/-! ## Safety-acknowledgment handshake (src/client.py)

`_extract_unacknowledged_safety_check_ids` matches the regular expression
`'([^']+)'` left-to-right without overlap and keeps ids with the `cu_sc_`
marker; `_add_acknowledged_safety_checks_to_input` rewrites call-output items.
The apostrophe is written `Char.ofNat 39`. -/

def quoteChar : Char := Char.ofNat 39

/-- Left-to-right non-overlapping matching of `'([^']+)'`: outside a quote,
any character is skipped; a quote opens a candidate; inside a candidate, a
closing quote with non-empty content emits the content, while an immediately
repeated quote re-opens (the empty candidate cannot match `[^']+`); an
unterminated candidate matches nothing. -/
def scanQuoted : List Char → Bool → List Char → List (List Char)
  | _, _, [] => []
  | _, false, c :: rest =>
    if c = quoteChar then scanQuoted [] true rest
    else scanQuoted [] false rest
  | acc, true, c :: rest =>
    if c = quoteChar then
      if acc.isEmpty then scanQuoted [] true rest
      else acc.reverse :: scanQuoted [] false rest
    else scanQuoted (c :: acc) true rest

/-- `re.findall(r"'([^']+)'", message)`. -/
def findQuoted (l : List Char) : List (List Char) := scanQuoted [] false l

/-- `_extract_unacknowledged_safety_check_ids`, as a function of the error
message. -/
def extract_unacknowledged_safety_check_ids (message : String) : List String :=
  if pyIn "unacknowledged safety check" message then
    ((findQuoted message.data).filter fun i => leadsWith "cu_sc_".data i).map
      fun l => String.mk l
  else []

lemma findQuoted_nonquote_cons (c : Char) (l : List Char) (hc : ¬ c = quoteChar) :
    findQuoted (c :: l) = findQuoted l := by
  unfold findQuoted
  rw [scanQuoted]
  simp [hc]

lemma findQuoted_skip (p l : List Char) (hp : ∀ c ∈ p, ¬ c = quoteChar) :
    findQuoted (p ++ l) = findQuoted l := by
  induction p with
  | nil => simp
  | cons c cs ih =>
    rw [List.cons_append, findQuoted_nonquote_cons _ _ (hp c (by simp))]
    exact ih fun d hd => hp d (by simp [hd])

lemma scanQuoted_inquote (content : List Char)
    (hq : ∀ c ∈ content, ¬ c = quoteChar) :
    ∀ (acc : List Char) (rest : List Char), acc.reverse ++ content ≠ [] →
      scanQuoted acc true (content ++ quoteChar :: rest)
        = (acc.reverse ++ content) :: scanQuoted [] false rest := by
  induction content with
  | nil =>
    intro acc rest hne
    simp only [List.nil_append] at hne ⊢
    rw [scanQuoted]
    have hie : acc.isEmpty = false := by
      cases acc with
      | nil => simp at hne
      | cons a as => rfl
    simp [hie]
  | cons d ds ih =>
    intro acc rest hne
    have hd : ¬ d = quoteChar := hq d (by simp)
    rw [List.cons_append, scanQuoted]
    simp only [hd, if_false]
    rw [ih (fun c hc => hq c (by simp [hc])) (d :: acc) rest (by simp)]
    simp

lemma findQuoted_capture (content rest : List Char) (hne : content ≠ [])
    (hq : ∀ c ∈ content, ¬ c = quoteChar) :
    findQuoted (quoteChar :: (content ++ quoteChar :: rest))
      = content :: findQuoted rest := by
  unfold findQuoted
  rw [scanQuoted]
  simp only [if_pos rfl]
  rw [scanQuoted_inquote content hq [] rest (by simpa using hne)]
  simp

/-- JSON-like values carried by input items. -/
inductive Val where
  | str (s : String)
  | vlist (l : List Val)
  | vdict (entries : List (String × Val))

/-- `dict.get` on an insertion-ordered dict. -/
def lookupVal (entries : List (String × Val)) (k : String) : Option Val :=
  match entries with
  | [] => none
  | (k2, v) :: rest => if k2 = k then some v else lookupVal rest k

/-- `key in dict`. -/
def hasKey (entries : List (String × Val)) (k : String) : Bool :=
  entries.any fun e => e.1 = k

/-- `item.get("type") == "computer_call_output"`. -/
def isComputerCallOutput (entries : List (String × Val)) : Bool :=
  match lookupVal entries "type" with
  | some (Val.str s) => s = "computer_call_output"
  | _ => false

/-- The appended entry
`{"acknowledged_safety_checks": [{"id": sid} for sid in ids]}`; Python dict
assignment of a new key appends it in insertion order. -/
def ack_entry (ids : List String) : String × Val :=
  ("acknowledged_safety_checks",
    Val.vlist (ids.map fun i => Val.vdict [("id", Val.str i)]))

/-- Per-item rewrite inside `_add_acknowledged_safety_checks_to_input`. -/
def add_acknowledged_item (ids : List String) : Val → Val
  | Val.vdict entries =>
    if isComputerCallOutput entries then
      if hasKey entries "acknowledged_safety_checks" then Val.vdict entries
      else Val.vdict (entries ++ [ack_entry ids])
    else Val.vdict entries
  | v => v

/-- The `input` keyword argument: either a non-list payload (returned
untouched) or a list of items. -/
inductive InputParam where
  | nonList (tag : String)
  | items (l : List Val)

/-- `_add_acknowledged_safety_checks_to_input`. -/
def add_acknowledged_safety_checks_to_input (input : InputParam)
    (ids : List String) : InputParam :=
  match ids with
  | [] => input
  | _ :: _ =>
    match input with
    | InputParam.nonList s => InputParam.nonList s
    | InputParam.items l => InputParam.items (l.map (add_acknowledged_item ids))

/-! ### C8 -/

/-- C8: for a safety-handshake failure whose message embeds two distinct
quoted `cu_sc_` ids, exactly those two ids are extracted, in order; the
resubmitted input maps each item individually, where a call-output item
without a caller-supplied acknowledged-ids list gains exactly those two ids
appended as a new final key, a caller-supplied list is never overwritten, and
every other item — and any non-list input — is unchanged. -/
theorem C8_safety_ack_ids_extracted_and_rewrite_frame
    (p q r id1 id2 : List Char)
    (hp : ∀ c ∈ p, ¬ c = quoteChar) (hq2 : ∀ c ∈ q, ¬ c = quoteChar)
    (hr : ∀ c ∈ r, ¬ c = quoteChar)
    (h1ne : id1 ≠ []) (h2ne : id2 ≠ [])
    (h1q : ∀ c ∈ id1, ¬ c = quoteChar) (h2q : ∀ c ∈ id2, ¬ c = quoteChar)
    (h1m : leadsWith "cu_sc_".data id1 = true)
    (h2m : leadsWith "cu_sc_".data id2 = true)
    (hdist : id1 ≠ id2)
    (hcontains : pyIn "unacknowledged safety check"
      (String.mk (p ++ quoteChar :: (id1 ++ quoteChar ::
        (q ++ quoteChar :: (id2 ++ quoteChar :: r))))) = true) :
    extract_unacknowledged_safety_check_ids
        (String.mk (p ++ quoteChar :: (id1 ++ quoteChar ::
          (q ++ quoteChar :: (id2 ++ quoteChar :: r)))))
      = [String.mk id1, String.mk id2] ∧
    (∀ l : List Val,
      add_acknowledged_safety_checks_to_input (.items l)
          [String.mk id1, String.mk id2]
        = .items (l.map (add_acknowledged_item [String.mk id1, String.mk id2]))) ∧
    (∀ entries, isComputerCallOutput entries = true →
      hasKey entries "acknowledged_safety_checks" = false →
      add_acknowledged_item [String.mk id1, String.mk id2] (Val.vdict entries)
        = Val.vdict (entries ++ [ack_entry [String.mk id1, String.mk id2]])) ∧
    (∀ entries, hasKey entries "acknowledged_safety_checks" = true →
      add_acknowledged_item [String.mk id1, String.mk id2] (Val.vdict entries)
        = Val.vdict entries) ∧
    (∀ entries, isComputerCallOutput entries = false →
      add_acknowledged_item [String.mk id1, String.mk id2] (Val.vdict entries)
        = Val.vdict entries) ∧
    (∀ s, add_acknowledged_item [String.mk id1, String.mk id2] (Val.str s)
        = Val.str s) ∧
    (∀ s, add_acknowledged_safety_checks_to_input (.nonList s)
        [String.mk id1, String.mk id2] = .nonList s) := by
  refine ⟨?_, fun l => rfl, ?_, ?_, ?_, fun s => rfl, fun s => rfl⟩
  · unfold extract_unacknowledged_safety_check_ids
    rw [if_pos hcontains]
    have hdata : (String.mk (p ++ quoteChar :: (id1 ++ quoteChar ::
        (q ++ quoteChar :: (id2 ++ quoteChar :: r))))).data
        = p ++ quoteChar :: (id1 ++ quoteChar ::
          (q ++ quoteChar :: (id2 ++ quoteChar :: r))) := rfl
    rw [hdata, findQuoted_skip p _ hp, findQuoted_capture id1 _ h1ne h1q,
      findQuoted_skip q _ hq2, findQuoted_capture id2 _ h2ne h2q]
    have hre : findQuoted r = [] := by
      have := findQuoted_skip r [] hr
      rw [List.append_nil] at this
      rw [this]
      rfl
    rw [hre]
    simp [h1m, h2m]
  · intro entries hcco hnokey
    simp [add_acknowledged_item, hcco, hnokey]
  · intro entries hkey
    by_cases hcco : isComputerCallOutput entries = true <;>
      simp [add_acknowledged_item, hcco, hkey]
  · intro entries hcco
    simp [add_acknowledged_item, hcco]

/-- Witness for C8 on a concrete two-id error message. -/
theorem C8_safety_ack_ids_extracted_and_rewrite_frame_witness :
    extract_unacknowledged_safety_check_ids
        (String.mk ("unacknowledged safety check [".data ++ quoteChar ::
          ("cu_sc_alpha".data ++ quoteChar :: (", ".data ++ quoteChar ::
            ("cu_sc_beta".data ++ quoteChar :: "]".data)))))
      = [String.mk "cu_sc_alpha".data, String.mk "cu_sc_beta".data] ∧
    (∀ l : List Val,
      add_acknowledged_safety_checks_to_input (.items l)
          [String.mk "cu_sc_alpha".data, String.mk "cu_sc_beta".data]
        = .items (l.map (add_acknowledged_item
            [String.mk "cu_sc_alpha".data, String.mk "cu_sc_beta".data]))) ∧
    (∀ entries, isComputerCallOutput entries = true →
      hasKey entries "acknowledged_safety_checks" = false →
      add_acknowledged_item
          [String.mk "cu_sc_alpha".data, String.mk "cu_sc_beta".data]
          (Val.vdict entries)
        = Val.vdict (entries ++ [ack_entry
            [String.mk "cu_sc_alpha".data, String.mk "cu_sc_beta".data]])) ∧
    (∀ entries, hasKey entries "acknowledged_safety_checks" = true →
      add_acknowledged_item
          [String.mk "cu_sc_alpha".data, String.mk "cu_sc_beta".data]
          (Val.vdict entries)
        = Val.vdict entries) ∧
    (∀ entries, isComputerCallOutput entries = false →
      add_acknowledged_item
          [String.mk "cu_sc_alpha".data, String.mk "cu_sc_beta".data]
          (Val.vdict entries)
        = Val.vdict entries) ∧
    (∀ s, add_acknowledged_item
        [String.mk "cu_sc_alpha".data, String.mk "cu_sc_beta".data] (Val.str s)
        = Val.str s) ∧
    (∀ s, add_acknowledged_safety_checks_to_input (.nonList s)
        [String.mk "cu_sc_alpha".data, String.mk "cu_sc_beta".data]
        = .nonList s) :=
  C8_safety_ack_ids_extracted_and_rewrite_frame
    "unacknowledged safety check [".data ", ".data "]".data
    "cu_sc_alpha".data "cu_sc_beta".data
    (by decide) (by decide) (by decide) (by decide) (by decide)
    (by decide) (by decide) (by decide) (by decide) (by decide) (by decide)

/-! ## Text injection (src/actions.py, `perform_type`)

The clipboard capability is modelled as state: the claim's hypotheses —
clipboard available and prior content a string — make every `pyperclip` call
succeed, so the `try/finally` runs `copy(previous)` on every exit path. -/

/-- Observable effect of one `perform_type` call: the final clipboard content
and the texts injected via the paste hotkey. -/
structure TypeEffect where
  clip : String
  pasted : List String
deriving DecidableEq

/-- `perform_type` on the clipboard path: save `previous = paste()`, copy the
text, paste it via the hotkey, and in the `finally` block restore `previous`
(a string by hypothesis).  Empty text returns before touching the
clipboard. -/
def perform_type (text : String) (clip0 : String) : TypeEffect :=
  if text = "" then { clip := clip0, pasted := [] }
  else
    let previous := clip0
    let clipAfterCopy := text
    let pasted := [clipAfterCopy]
    { clip := previous, pasted := pasted }

/-! ### C10 -/

/-- C10: with the clipboard capability available and a string as prior
clipboard content, `perform_type` always returns with the clipboard equal to
its prior value, and a non-empty text is injected exactly once via the
transient clipboard paste. -/
theorem C10_perform_type_restores_clipboard (text clip0 : String) :
    (perform_type text clip0).clip = clip0 ∧
    (text ≠ "" → (perform_type text clip0).pasted = [text]) := by
  unfold perform_type
  by_cases h : text = "" <;> simp [h]

/-- Witness for C10 at a concrete text and prior clipboard content. -/
theorem C10_perform_type_restores_clipboard_witness :
    (perform_type "こんにちは" "prior-clipboard").clip = "prior-clipboard" ∧
    (perform_type "こんにちは" "prior-clipboard").pasted = ["こんにちは"] :=
  ⟨(C10_perform_type_restores_clipboard "こんにちは" "prior-clipboard").1,
    (C10_perform_type_restores_clipboard "こんにちは" "prior-clipboard").2
      (by decide)⟩
